import Mathlib

/-!
Shallow embedding of the core of `src/app.py` (Cortex tutoring app):
the SQLite-backed persistence helpers (`init_db` schema, `get_or_create_user`,
`save_progress`, `get_user_stats`), the `text_to_speech` helper, and the
main answer-handling cycle (lines 177-203 of the source).

External collaborators (the Gemini-backed transcription, evaluation,
curriculum and tutor calls, and the gTTS synthesis call) are modelled as
oracle functions that either return a value or raise (`Except Unit`),
exactly at the call sites where the Python code invokes them.  The Python
code wraps none of these calls in a try/except block except the body of
`text_to_speech`; accordingly an oracle failure propagates out of the
embedded cycle as an error value recording which call raised, together
with the partial state mutations already performed (Python session state
is mutated in place, so mutations made before the raise survive).
-/

namespace Cortex

/-- A row of the `users` table: `(id INTEGER PRIMARY KEY AUTOINCREMENT, name TEXT UNIQUE, created_at TEXT)`. -/
structure UserRow where
  id : Nat
  name : String
  created_at : String
deriving Repr, DecidableEq

/-- A row of the `logs` table: `(id, user_id, topic, difficulty, score, timestamp)`.
The schema declares no foreign-key constraint on `user_id`. -/
structure LogRow where
  id : Nat
  user_id : Nat
  topic : String
  difficulty : String
  score : Int
  timestamp : String
deriving Repr, DecidableEq

/-- The SQLite database `learning_data.db`: the two tables created by `init_db`,
each kept in insertion order. -/
structure DB where
  users : List UserRow
  logs : List LogRow
deriving Repr, DecidableEq

/-- AUTOINCREMENT id for the next `users` row (one more than the current maximum;
with no deletions this matches SQLite `lastrowid`). -/
def nextUserId (db : DB) : Nat :=
  db.users.foldr (fun u m => max u.id m) 0 + 1

/-- AUTOINCREMENT id for the next `logs` row. -/
def nextLogId (db : DB) : Nat :=
  db.logs.foldr (fun l m => max l.id m) 0 + 1

/-- `get_or_create_user(username)`: SELECT id FROM users WHERE name = ?; if a row
is found return its id, otherwise INSERT a new row and return `lastrowid`.
The extra `now` argument stands for `datetime.now().strftime(...)`. -/
def get_or_create_user (db : DB) (username : String) (now : String) : DB × Nat :=
  match db.users.find? (fun u => u.name == username) with
  | some u => (db, u.id)
  | none =>
      let uid := nextUserId db
      ({ db with users := db.users ++ [⟨uid, username, now⟩] }, uid)

/-- `save_progress(user_id, topic, difficulty, score)`: INSERT one row into `logs`
and commit.  The boolean `store_ok` models whether the SQLite store is reachable:
when it is not, `sqlite3.connect`/`execute` raises and nothing is written.  The
function performs no check that `user_id` names an existing user (the schema has
no foreign-key constraint). -/
def save_progress (store_ok : Bool) (db : DB) (user_id : Nat)
    (topic difficulty : String) (score : Int) (now : String) : Except Unit DB :=
  if store_ok then
    Except.ok { db with logs := db.logs ++ [⟨nextLogId db, user_id, topic, difficulty, score, now⟩] }
  else
    Except.error ()

/-- One row of the dataframe returned by `get_user_stats`:
`SELECT topic, score, timestamp FROM logs WHERE user_id = ?`. -/
structure StatRow where
  topic : String
  score : Int
  timestamp : String
deriving Repr, DecidableEq

/-- `get_user_stats(user_id)`: `sqlite3.connect(DB_FILE)` followed by
`SELECT topic, score, timestamp FROM logs WHERE user_id = ?` via pandas, with no
try/except.  The boolean `store_ok` models reachability of the SQLite store
exactly as in `save_progress`: when the store is unreachable the connect raises
and the raise propagates; otherwise the query returns the rows of `logs` with
this `user_id`, projected to `(topic, score, timestamp)`, in table insertion
order (the query has no ORDER BY; SQLite scans the single table in rowid
order), for any user id. -/
def get_user_stats (store_ok : Bool) (db : DB) (uid : Nat) : Except Unit (List StatRow) :=
  if store_ok then
    Except.ok
      ((db.logs.filter (fun l => l.user_id == uid)).map (fun l => ⟨l.topic, l.score, l.timestamp⟩))
  else
    Except.error ()

/-- One chat message of `st.session_state.history`. -/
structure Msg where
  role : String
  content : String
deriving Repr, DecidableEq

/-- The per-session state: `history`, `current_topic`, `difficulty`,
`mastery_score`, `last_audio` (the synthesized audio buffer, modelled by the
synthesized text). -/
structure SessionState where
  history : List Msg
  current_topic : String
  difficulty : String
  mastery_score : Int
  last_audio : Option String
deriving Repr, DecidableEq

/-- The parsed JSON returned by `agent_evaluator`: `{ score, feedback }`. -/
structure EvalResult where
  score : Int
  feedback : String
deriving Repr, DecidableEq

/-- The parsed JSON returned by `agent_curriculum`: `{ next_topic, difficulty }`. -/
structure Plan where
  next_topic : String
  difficulty : String
deriving Repr, DecidableEq

/-- Which external call raised an exception that the main cycle does not catch. -/
inductive PyErr where
  | transcription
  | evaluation
  | persistence
  | curriculum
  | lesson
deriving Repr, DecidableEq

/-- The oracles for one cycle: each external call either returns a value
(`Except.ok`) or raises (`Except.error ()`).  `transcribe` yields `response.text`,
which may be absent (`none`) or empty; `gtts` is the synthesis call inside
`text_to_speech`; `store_ok` is reachability of the SQLite store. -/
structure Providers where
  transcribe : Except Unit (Option String)
  evaluate : String → String → Except Unit EvalResult
  curriculum : Int → String → Except Unit Plan
  tutor : String → String → Except Unit String
  gtts : String → Except Unit String
  store_ok : Bool

/-- Python truthiness of `user_text` in `if user_text:`: `None` and `""` are falsy. -/
def usable : Option String → Bool
  | none => false
  | some s => !s.isEmpty

/-- `text_to_speech(text)`: try the gTTS synthesis; on any exception the bare
`except:` returns `None`. -/
def text_to_speech (g : String → Except Unit String) (text : String) : Option String :=
  match g text with
  | Except.ok buf => some buf
  | Except.error _ => none

/-- `full_resp = f"({score}/100 - {eval_result['feedback']}) {new_lesson}"`. -/
def full_response (score : Int) (feedback lesson : String) : String :=
  "(" ++ toString score ++ "/100 - " ++ feedback ++ ") " ++ lesson

/-- Step 2 of the cycle: `if user_id: save_progress(...)`.  When no user identity
is bound the write is skipped and the database is unchanged. -/
def saveStep (p : Providers) (uid : Option Nat) (topic difficulty : String)
    (score : Int) (now : String) (db : DB) : Except Unit DB :=
  match uid with
  | none => Except.ok db
  | some u => save_progress p.store_ok db u topic difficulty score now

/-- Result of one cycle: the session state and database afterwards, and, when an
external call raised, which one (`err = some e` means the exception propagated
uncaught out of the `if audio and client:` block, with the mutations already
performed still in place). -/
structure CycleResult where
  state : SessionState
  db : DB
  err : Option PyErr
deriving Repr, DecidableEq

/-- The main answer-handling cycle, lines 177-203 of `src/app.py`:
transcribe; if the text is truthy append the learner message, evaluate, set
`mastery_score`, save progress when a user is bound, ask the curriculum agent and
update topic/difficulty, ask the tutor agent with the new topic, compose
`full_resp`, append it as the assistant message and synthesize audio.  No call in
this block is wrapped in try/except, so any raise aborts the remaining steps. -/
def run_cycle (p : Providers) (uid : Option Nat) (now : String)
    (s : SessionState) (db : DB) : CycleResult :=
  match p.transcribe with
  | Except.error _ => ⟨s, db, some PyErr.transcription⟩
  | Except.ok user_text =>
    if usable user_text then
      let t := user_text.getD ""
      let s1 : SessionState := { s with history := s.history ++ [⟨"user", t⟩] }
      match p.evaluate t s1.current_topic with
      | Except.error _ => ⟨s1, db, some PyErr.evaluation⟩
      | Except.ok ev =>
        let s2 : SessionState := { s1 with mastery_score := ev.score }
        match saveStep p uid s2.current_topic s2.difficulty ev.score now db with
        | Except.error _ => ⟨s2, db, some PyErr.persistence⟩
        | Except.ok db1 =>
          match p.curriculum ev.score s2.current_topic with
          | Except.error _ => ⟨s2, db1, some PyErr.curriculum⟩
          | Except.ok plan =>
            let s3 : SessionState :=
              { s2 with current_topic := plan.next_topic, difficulty := plan.difficulty }
            match p.tutor s3.current_topic s3.difficulty with
            | Except.error _ => ⟨s3, db1, some PyErr.lesson⟩
            | Except.ok new_lesson =>
              let fr := full_response ev.score ev.feedback new_lesson
              let s4 : SessionState :=
                { s3 with history := s3.history ++ [⟨"assistant", fr⟩],
                          last_audio := text_to_speech p.gtts fr }
              ⟨s4, db1, none⟩
    else ⟨s, db, none⟩

/-- Initial session state set by the `st.session_state` defaults:
empty history, topic "Python Basics", difficulty "Beginner", score 0, no audio. -/
def s0 : SessionState := ⟨[], "Python Basics", "Beginner", 0, none⟩

/-- A database holding the single user created by logging in as "Student". -/
def db0 : DB := ⟨[⟨1, "Student", "2024-01-01 10:00:00"⟩], []⟩

/-- Oracles for a fully successful cycle: transcript "A variable stores a value",
evaluation `{score: 80, feedback: "Good"}`, curriculum
`{next_topic: "Loops", difficulty: "Intermediate"}`, lesson "L2", synthesis ok. -/
def p80 : Providers :=
  ⟨Except.ok (some "A variable stores a value"),
   fun _ _ => Except.ok ⟨80, "Good"⟩,
   fun _ _ => Except.ok ⟨"Loops", "Intermediate"⟩,
   fun _ _ => Except.ok "L2",
   fun a => Except.ok a,
   true⟩

/-- Like `p80` but the evaluation provider returns the out-of-range score -5. -/
def pNeg : Providers :=
  ⟨Except.ok (some "A variable stores a value"),
   fun _ _ => Except.ok ⟨-5, "Bad"⟩,
   fun _ _ => Except.ok ⟨"Loops", "Intermediate"⟩,
   fun _ _ => Except.ok "L2",
   fun a => Except.ok a,
   true⟩

/-- Like `p80` but the evaluation provider returns the out-of-range score 150. -/
def p150 : Providers :=
  ⟨Except.ok (some "A variable stores a value"),
   fun _ _ => Except.ok ⟨150, "Great"⟩,
   fun _ _ => Except.ok ⟨"Loops", "Intermediate"⟩,
   fun _ _ => Except.ok "L2",
   fun a => Except.ok a,
   true⟩

/-- Like `p80` but the SQLite store is unreachable, so `save_progress` raises. -/
def pSaveFail : Providers :=
  ⟨Except.ok (some "A variable stores a value"),
   fun _ _ => Except.ok ⟨80, "Good"⟩,
   fun _ _ => Except.ok ⟨"Loops", "Intermediate"⟩,
   fun _ _ => Except.ok "L2",
   fun a => Except.ok a,
   false⟩

/-- Like `p80` but the evaluation call raises (network error or `json.loads` failure). -/
def pEvalFail : Providers :=
  ⟨Except.ok (some "A variable stores a value"),
   fun _ _ => Except.error (),
   fun _ _ => Except.ok ⟨"Loops", "Intermediate"⟩,
   fun _ _ => Except.ok "L2",
   fun a => Except.ok a,
   true⟩

/-- Like `p80` but transcription yields the empty string. -/
def pEmpty : Providers :=
  ⟨Except.ok (some ""),
   fun _ _ => Except.ok ⟨80, "Good"⟩,
   fun _ _ => Except.ok ⟨"Loops", "Intermediate"⟩,
   fun _ _ => Except.ok "L2",
   fun a => Except.ok a,
   true⟩

/-- Like `p80` but the gTTS synthesis call raises. -/
def pTtsFail : Providers :=
  ⟨Except.ok (some "A variable stores a value"),
   fun _ _ => Except.ok ⟨80, "Good"⟩,
   fun _ _ => Except.ok ⟨"Loops", "Intermediate"⟩,
   fun _ _ => Except.ok "L2",
   fun _ => Except.error (),
   true⟩

/-- Like `p80` but the curriculum call raises (network error or `json.loads` failure). -/
def pCurrFail : Providers :=
  ⟨Except.ok (some "A variable stores a value"),
   fun _ _ => Except.ok ⟨80, "Good"⟩,
   fun _ _ => Except.error (),
   fun _ _ => Except.ok "L2",
   fun a => Except.ok a,
   true⟩

/-- Like `p80` but the tutor (lesson) call raises. -/
def pLessonFail : Providers :=
  ⟨Except.ok (some "A variable stores a value"),
   fun _ _ => Except.ok ⟨80, "Good"⟩,
   fun _ _ => Except.ok ⟨"Loops", "Intermediate"⟩,
   fun _ _ => Except.error (),
   fun a => Except.ok a,
   true⟩

/-- Unfolding of `run_cycle` on the fully successful path: given a usable
transcript, a successful evaluation, save, curriculum and tutor call, the cycle
appends the learner message and the composed assistant message, updates topic,
difficulty and mastery score, and stores the synthesis result (or `none`). -/
theorem run_cycle_ok (p : Providers) (uid : Option Nat) (now : String)
    (s : SessionState) (db : DB) (t : String) (ev : EvalResult) (db1 : DB)
    (plan : Plan) (lesson : String)
    (ht : p.transcribe = Except.ok (some t))
    (hne : t.isEmpty = false)
    (hev : p.evaluate t s.current_topic = Except.ok ev)
    (hsave : saveStep p uid s.current_topic s.difficulty ev.score now db = Except.ok db1)
    (hc : p.curriculum ev.score s.current_topic = Except.ok plan)
    (hl : p.tutor plan.next_topic plan.difficulty = Except.ok lesson) :
    run_cycle p uid now s db =
      ⟨{ history := s.history ++ [⟨"user", t⟩,
           ⟨"assistant", full_response ev.score ev.feedback lesson⟩],
         current_topic := plan.next_topic,
         difficulty := plan.difficulty,
         mastery_score := ev.score,
         last_audio := text_to_speech p.gtts (full_response ev.score ev.feedback lesson) },
       db1, none⟩ := by
  simp [run_cycle, ht, usable, hne, hev, hsave, hc, hl]

/-- Claim C1, counterexample: the code does not clamp the provider score.  With the
evaluation provider returning -5, the stored `logs` row carries score -5 (not 0),
`mastery_score` is set to -5, and -5 lies outside [0,100]. -/
theorem c1_counterexample :
    (run_cycle pNeg (some 1) "ts" s0 db0).db.logs =
      [⟨1, 1, "Python Basics", "Beginner", -5, "ts"⟩] ∧
    (run_cycle pNeg (some 1) "ts" s0 db0).state.mastery_score = -5 ∧
    ¬ (0 ≤ (-5 : Int)) :=
  ⟨rfl, rfl, by decide⟩

/-- Claim C1, amended: the score stored via `save_progress` and set as
`mastery_score` is exactly the score returned by the evaluation provider, with no
clamping; out-of-range scores such as -5 or 150 are stored unchanged. -/
theorem c1_amended (p : Providers) (u : Nat) (now : String) (s : SessionState)
    (db : DB) (t : String) (ev : EvalResult) (plan : Plan) (lesson : String)
    (ht : p.transcribe = Except.ok (some t))
    (hne : t.isEmpty = false)
    (hev : p.evaluate t s.current_topic = Except.ok ev)
    (hstore : p.store_ok = true)
    (hc : p.curriculum ev.score s.current_topic = Except.ok plan)
    (hl : p.tutor plan.next_topic plan.difficulty = Except.ok lesson) :
    (run_cycle p (some u) now s db).db.logs =
      db.logs ++ [⟨nextLogId db, u, s.current_topic, s.difficulty, ev.score, now⟩] ∧
    (run_cycle p (some u) now s db).state.mastery_score = ev.score := by
  have hsave : saveStep p (some u) s.current_topic s.difficulty ev.score now db =
      Except.ok { db with logs :=
        db.logs ++ [⟨nextLogId db, u, s.current_topic, s.difficulty, ev.score, now⟩] } := by
    simp [saveStep, save_progress, hstore]
  rw [run_cycle_ok p (some u) now s db t ev _ plan lesson ht hne hev hsave hc hl]
  exact ⟨rfl, rfl⟩

/-- Claim C1, witness: instantiating the amended theorem with the provider
returning score 150 shows the row is stored with score 150. -/
theorem c1_witness :
    (run_cycle p150 (some 1) "ts" s0 db0).db.logs =
      db0.logs ++ [⟨nextLogId db0, 1, s0.current_topic, s0.difficulty, 150, "ts"⟩] ∧
    (run_cycle p150 (some 1) "ts" s0 db0).state.mastery_score = 150 :=
  c1_amended p150 1 "ts" s0 db0 "A variable stores a value" ⟨150, "Great"⟩
    ⟨"Loops", "Intermediate"⟩ "L2" rfl rfl rfl rfl rfl rfl

/-- Claim C2, counterexample: `save_progress` is not wrapped in try/except, so when
the store is unreachable the exception aborts the rest of the cycle: the error
propagates, `current_topic` stays "Python Basics" (the curriculum call never runs,
though it would have returned "Loops"), and no assistant turn is appended. -/
theorem c2_counterexample :
    (run_cycle pSaveFail (some 1) "ts" s0 db0).err = some PyErr.persistence ∧
    (run_cycle pSaveFail (some 1) "ts" s0 db0).state.current_topic = "Python Basics" ∧
    ¬ (∃ m ∈ (run_cycle pSaveFail (some 1) "ts" s0 db0).state.history,
        m.role = "assistant") :=
  ⟨rfl, rfl, by decide⟩

/-- Claim C2, amended: when a user identity is bound and `save_progress` fails, the
exception propagates and the remaining steps do not execute: topic and difficulty
are unchanged, no assistant turn is appended and no audio is synthesized; the
learner message and `mastery_score` updates made before the failure remain. -/
theorem c2_amended (p : Providers) (u : Nat) (now : String) (s : SessionState)
    (db : DB) (t : String) (ev : EvalResult)
    (ht : p.transcribe = Except.ok (some t))
    (hne : t.isEmpty = false)
    (hev : p.evaluate t s.current_topic = Except.ok ev)
    (hstore : p.store_ok = false) :
    run_cycle p (some u) now s db =
      ⟨{ s with history := s.history ++ [⟨"user", t⟩], mastery_score := ev.score },
        db, some PyErr.persistence⟩ := by
  simp [run_cycle, ht, usable, hne, hev, saveStep, save_progress, hstore]

/-- Claim C2, witness: the amended theorem at the concrete failing-store cycle. -/
theorem c2_witness :
    run_cycle pSaveFail (some 1) "ts2" s0 db0 =
      ⟨{ s0 with history := s0.history ++ [⟨"user", "A variable stores a value"⟩], mastery_score := 80 },
        db0, some PyErr.persistence⟩ :=
  c2_amended pSaveFail 1 "ts2" s0 db0 "A variable stores a value" ⟨80, "Good"⟩
    rfl rfl rfl rfl

/-- Claim C3, counterexample: a failure of the evaluation call is not caught
anywhere in the cycle: it propagates out as an uncaught exception rather than
being mapped to a silent abort, a visible notice, or a logged-and-continue
action. -/
theorem c3_counterexample :
    (run_cycle pEvalFail (some 1) "ts" s0 db0).err = some PyErr.evaluation ∧
    (run_cycle pEvalFail (some 1) "ts" s0 db0).err ≠ none :=
  ⟨rfl, by decide⟩

/-- Claim C3, amended: only two failure modes are handled at the point of the
call: a transcription result with no usable text (silent abort with no state
change, covered by the empty-text guard) and a speech-synthesis failure (caught
by the bare except in `text_to_speech`, leaving `last_audio = none` while the
cycle completes).  A raise from the transcription or evaluation call (and
likewise persistence, curriculum or lesson) propagates uncaught out of the
cycle. -/
theorem c3_amended (p : Providers) (uid : Option Nat) (now : String)
    (s : SessionState) (db : DB) :
    (p.transcribe = Except.error () →
      run_cycle p uid now s db = ⟨s, db, some PyErr.transcription⟩) ∧
    (∀ o, p.transcribe = Except.ok o → usable o = false →
      run_cycle p uid now s db = ⟨s, db, none⟩) ∧
    (∀ t, p.transcribe = Except.ok (some t) → t.isEmpty = false →
      p.evaluate t s.current_topic = Except.error () →
      run_cycle p uid now s db =
        ⟨{ s with history := s.history ++ [⟨"user", t⟩] }, db,
          some PyErr.evaluation⟩) ∧
    (∀ t ev u, uid = some u → p.store_ok = false →
      p.transcribe = Except.ok (some t) → t.isEmpty = false →
      p.evaluate t s.current_topic = Except.ok ev →
      run_cycle p uid now s db =
        ⟨{ s with history := s.history ++ [⟨"user", t⟩], mastery_score := ev.score },
          db, some PyErr.persistence⟩) ∧
    (∀ t ev db1, p.transcribe = Except.ok (some t) → t.isEmpty = false →
      p.evaluate t s.current_topic = Except.ok ev →
      saveStep p uid s.current_topic s.difficulty ev.score now db = Except.ok db1 →
      p.curriculum ev.score s.current_topic = Except.error () →
      run_cycle p uid now s db =
        ⟨{ s with history := s.history ++ [⟨"user", t⟩], mastery_score := ev.score },
          db1, some PyErr.curriculum⟩) ∧
    (∀ t ev db1 plan, p.transcribe = Except.ok (some t) → t.isEmpty = false →
      p.evaluate t s.current_topic = Except.ok ev →
      saveStep p uid s.current_topic s.difficulty ev.score now db = Except.ok db1 →
      p.curriculum ev.score s.current_topic = Except.ok plan →
      p.tutor plan.next_topic plan.difficulty = Except.error () →
      run_cycle p uid now s db =
        ⟨{ s with history := s.history ++ [⟨"user", t⟩], mastery_score := ev.score, current_topic := plan.next_topic, difficulty := plan.difficulty },
          db1, some PyErr.lesson⟩) ∧
    (∀ t ev db1 plan lesson, p.transcribe = Except.ok (some t) → t.isEmpty = false →
      p.evaluate t s.current_topic = Except.ok ev →
      saveStep p uid s.current_topic s.difficulty ev.score now db = Except.ok db1 →
      p.curriculum ev.score s.current_topic = Except.ok plan →
      p.tutor plan.next_topic plan.difficulty = Except.ok lesson →
      p.gtts (full_response ev.score ev.feedback lesson) = Except.error () →
      (run_cycle p uid now s db).err = none ∧
      (run_cycle p uid now s db).state.last_audio = none) := by
  refine ⟨?_, ?_, ?_, ?_, ?_, ?_, ?_⟩
  · intro h
    simp [run_cycle, h]
  · intro o ho hu
    simp [run_cycle, ho, hu]
  · intro t ht hne hev
    simp [run_cycle, ht, usable, hne, hev]
  · intro t ev u hu hstore ht hne hev
    subst hu
    simp [run_cycle, ht, usable, hne, hev, saveStep, save_progress, hstore]
  · intro t ev db1 ht hne hev hsave hc
    simp [run_cycle, ht, usable, hne, hev, hsave, hc]
  · intro t ev db1 plan ht hne hev hsave hc hl
    simp [run_cycle, ht, usable, hne, hev, hsave, hc, hl]
  · intro t ev db1 plan lesson ht hne hev hsave hc hl hg
    rw [run_cycle_ok p uid now s db t ev db1 plan lesson ht hne hev hsave hc hl]
    exact ⟨rfl, by simp [text_to_speech, hg]⟩

/-- Claim C3, witness: the amended theorem applied to three concrete cycles: one
whose curriculum call raises (the exception propagates after the committed save,
with topic unchanged), one whose tutor call raises (the exception propagates
after the topic update, with no assistant turn), and one whose evaluation call
raises. -/
theorem c3_witness :
    run_cycle pCurrFail (some 1) "ts3" s0 db0 =
      ⟨{ s0 with history := s0.history ++ [⟨"user", "A variable stores a value"⟩], mastery_score := 80 },
        ⟨[⟨1, "Student", "2024-01-01 10:00:00"⟩], [⟨1, 1, "Python Basics", "Beginner", 80, "ts3"⟩]⟩,
        some PyErr.curriculum⟩ ∧
    run_cycle pLessonFail (some 1) "ts3" s0 db0 =
      ⟨{ s0 with history := s0.history ++ [⟨"user", "A variable stores a value"⟩], mastery_score := 80, current_topic := "Loops", difficulty := "Intermediate" },
        ⟨[⟨1, "Student", "2024-01-01 10:00:00"⟩], [⟨1, 1, "Python Basics", "Beginner", 80, "ts3"⟩]⟩,
        some PyErr.lesson⟩ ∧
    run_cycle pEvalFail (some 1) "ts3" s0 db0 =
      ⟨{ s0 with history := s0.history ++ [⟨"user", "A variable stores a value"⟩] },
        db0, some PyErr.evaluation⟩ :=
  ⟨(c3_amended pCurrFail (some 1) "ts3" s0 db0).2.2.2.2.1
      "A variable stores a value" ⟨80, "Good"⟩
      ⟨[⟨1, "Student", "2024-01-01 10:00:00"⟩], [⟨1, 1, "Python Basics", "Beginner", 80, "ts3"⟩]⟩
      rfl rfl rfl rfl rfl,
   (c3_amended pLessonFail (some 1) "ts3" s0 db0).2.2.2.2.2.1
      "A variable stores a value" ⟨80, "Good"⟩
      ⟨[⟨1, "Student", "2024-01-01 10:00:00"⟩], [⟨1, 1, "Python Basics", "Beginner", 80, "ts3"⟩]⟩
      ⟨"Loops", "Intermediate"⟩ rfl rfl rfl rfl rfl rfl,
   (c3_amended pEvalFail (some 1) "ts3" s0 db0).2.2.1
      "A variable stores a value" rfl rfl rfl⟩

/-- Claim C4 (confirmed): repeated sequential calls of `get_or_create_user` with
the same name return the same id, the second call changing nothing (the first
call may create the row); and if at most one user row exists for the name before
the first call, at most one exists afterwards. -/
theorem c4 (db : DB) (name now1 now2 : String) :
    get_or_create_user (get_or_create_user db name now1).1 name now2 =
      get_or_create_user db name now1 ∧
    (db.users.countP (fun u => u.name == name) ≤ 1 →
      (get_or_create_user db name now1).1.users.countP (fun u => u.name == name) ≤ 1) := by
  cases hfind : db.users.find? (fun u => u.name == name) with
  | some u =>
      constructor
      · simp [get_or_create_user, hfind]
      · intro h
        simpa [get_or_create_user, hfind] using h
  | none =>
      have hcnt : db.users.countP (fun u => u.name == name) = 0 :=
        List.countP_eq_zero.mpr (List.find?_eq_none.mp hfind)
      have hf2 : (db.users ++ [(⟨nextUserId db, name, now1⟩ : UserRow)]).find?
          (fun u => u.name == name) = some ⟨nextUserId db, name, now1⟩ := by
        rw [List.find?_append, hfind]
        simp [List.find?]
      constructor
      · simp [get_or_create_user, hfind, hf2]
      · intro _
        simp only [get_or_create_user, hfind]
        rw [List.countP_append, hcnt]
        simp [List.countP_singleton]

/-- Claim C4, witness: starting from the empty database, a second login as
"Student" returns the same id with no new row, and one row exists for the name. -/
theorem c4_witness :
    get_or_create_user (get_or_create_user ⟨[], []⟩ "Student" "t1").1 "Student" "t2" =
      get_or_create_user ⟨[], []⟩ "Student" "t1" ∧
    (get_or_create_user ⟨[], []⟩ "Student" "t1").1.users.countP
      (fun u => u.name == "Student") ≤ 1 := by
  have h := c4 ⟨[], []⟩ "Student" "t1" "t2"
  exact ⟨h.1, h.2 (by decide)⟩

/-- Claim C5, counterexample: `get_user_stats` opens the same SQLite store as
`save_progress` with no try/except, so the "never fails" conjunct is false: when
the store is unreachable the fetch fails even for a valid, existing user id
(user 1 exists in `db0`), while the same call on the reachable store succeeds. -/
theorem c5_counterexample :
    (db0.users.find? (fun u => u.id == 1)).isSome = true ∧
    get_user_stats false db0 1 = Except.error () ∧
    get_user_stats true db0 1 = Except.ok [] :=
  ⟨rfl, rfl, rfl⟩

/-- Claim C5, amended: with the store reachable, `get_user_stats` succeeds for
every user id, returning all of the user's entries in insertion order
(chronological) and the empty sequence when there are none; after a successful
`save_progress(userId, topic, difficulty, score)` the fetched rows gain exactly
the recorded `(topic, score, timestamp)` row at the end, the stored log row also
carrying the recorded difficulty.  When the store is unreachable the fetch
fails (the raise propagates), exactly as the write does. -/
theorem c5_amended (db : DB) (uid : Nat) (t d : String) (sc : Int) (ts : String) :
    (∃ rows, get_user_stats true db uid = Except.ok rows) ∧
    ((∀ l ∈ db.logs, l.user_id ≠ uid) → get_user_stats true db uid = Except.ok []) ∧
    get_user_stats false db uid = Except.error () ∧
    ∃ db2 rows, save_progress true db uid t d sc ts = Except.ok db2 ∧
      db2.logs = db.logs ++ [⟨nextLogId db, uid, t, d, sc, ts⟩] ∧
      get_user_stats true db uid = Except.ok rows ∧
      get_user_stats true db2 uid = Except.ok (rows ++ [⟨t, sc, ts⟩]) := by
  refine ⟨⟨_, rfl⟩, ?_, rfl, ?_⟩
  · intro h
    have hf : db.logs.filter (fun l => l.user_id == uid) = [] := by
      rw [List.filter_eq_nil_iff]
      intro l hl
      simpa using h l hl
    simp [get_user_stats, hf]
  · refine ⟨_, _, rfl, rfl, rfl, ?_⟩
    simp [get_user_stats, save_progress, List.filter_append, List.map_append]

/-- Claim C5, witness: user 7 has no entries in `db0`, so the reachable-store
fetch returns the empty sequence and the unreachable-store fetch fails; after
recording `(7, "Python Basics", "Beginner", 80)` the fetched rows gain exactly
that row. -/
theorem c5_witness :
    (∃ rows, get_user_stats true db0 7 = Except.ok rows) ∧
    get_user_stats true db0 7 = Except.ok [] ∧
    get_user_stats false db0 7 = Except.error () ∧
    ∃ db2 rows, save_progress true db0 7 "Python Basics" "Beginner" 80 "ts" = Except.ok db2 ∧
      db2.logs = db0.logs ++ [⟨nextLogId db0, 7, "Python Basics", "Beginner", 80, "ts"⟩] ∧
      get_user_stats true db0 7 = Except.ok rows ∧
      get_user_stats true db2 7 = Except.ok (rows ++ [⟨"Python Basics", 80, "ts"⟩]) := by
  have h := c5_amended db0 7 "Python Basics" "Beginner" 80 "ts"
  refine ⟨h.1, h.2.1 ?_, h.2.2.1, h.2.2.2⟩
  intro l hl
  simp [db0] at hl

/-- Claim C6, counterexample: `save_progress` performs no user-existence check
(the `logs` schema has no foreign-key constraint), so with a reachable store and
an empty `users` table the call for user id 1 succeeds and appends the entry
rather than failing. -/
theorem c6_counterexample :
    (⟨[], []⟩ : DB).users = [] ∧
    save_progress true ⟨[], []⟩ 1 "Python Basics" "Beginner" 50 "ts" =
      Except.ok ⟨[], [⟨1, 1, "Python Basics", "Beginner", 50, "ts"⟩]⟩ :=
  ⟨rfl, rfl⟩

/-- Claim C6, amended: `save_progress` never checks that the user exists; for
every user id it appends the entry and succeeds whenever the store is reachable,
and it fails with nothing appended exactly when the store is unreachable. -/
theorem c6_amended (db : DB) (uid : Nat) (t d : String) (sc : Int) (ts : String) :
    save_progress true db uid t d sc ts =
      Except.ok { db with logs := db.logs ++ [⟨nextLogId db, uid, t, d, sc, ts⟩] } ∧
    save_progress false db uid t d sc ts = Except.error () :=
  ⟨rfl, rfl⟩

/-- Claim C7 (confirmed): when transcription yields no usable text (absent or
empty), the cycle returns with the session state and the database both exactly
unchanged and no error: no history mutation, no topic, difficulty, score or
audio change, and no persistence write. -/
theorem c7 (p : Providers) (uid : Option Nat) (now : String) (s : SessionState)
    (db : DB) (t : Option String)
    (ht : p.transcribe = Except.ok t) (hu : usable t = false) :
    run_cycle p uid now s db = ⟨s, db, none⟩ := by
  simp [run_cycle, ht, hu]

/-- Claim C7, witness: the concrete cycle whose transcription returns the empty
string leaves state and database untouched. -/
theorem c7_witness :
    run_cycle pEmpty (some 1) "ts" s0 db0 = ⟨s0, db0, none⟩ :=
  c7 pEmpty (some 1) "ts" s0 db0 (some "") rfl rfl

/-- Claim C8, counterexample: in the end-to-end scenario with score 80, feedback
"Good" and next lesson "L2", the visible tutor turn is "(80/100 - Good) L2": it
begins with the character "(" rather than with "80", and it is not the bare
concatenation of score, feedback and lesson (separator text is interposed). -/
theorem c8_counterexample :
    (run_cycle p80 (some 1) "ts" s0 db0).state.history.getLast? =
      some ⟨"assistant", "(80/100 - Good) L2"⟩ ∧
    ("(80/100 - Good) L2").data.take 2 ≠ "80".data ∧
    "(80/100 - Good) L2" ≠ "80" ++ "Good" ++ "L2" :=
  ⟨rfl, by decide, by decide⟩

/-- Claim C8, amended: the visible tutor turn appended on a successful cycle is
`"(" ++ score ++ "/100 - " ++ feedback ++ ") " ++ lesson`: the numeric score and
the feedback text come first and the new lesson second, but wrapped in the fixed
separator text, so with score 80 the turn begins with "(80/100 - " followed by
the feedback, not with "80" itself. -/
theorem c8_amended (p : Providers) (uid : Option Nat) (now : String)
    (s : SessionState) (db : DB) (t : String) (ev : EvalResult) (db1 : DB)
    (plan : Plan) (lesson : String)
    (ht : p.transcribe = Except.ok (some t))
    (hne : t.isEmpty = false)
    (hev : p.evaluate t s.current_topic = Except.ok ev)
    (hsave : saveStep p uid s.current_topic s.difficulty ev.score now db = Except.ok db1)
    (hc : p.curriculum ev.score s.current_topic = Except.ok plan)
    (hl : p.tutor plan.next_topic plan.difficulty = Except.ok lesson) :
    (run_cycle p uid now s db).state.history =
      s.history ++ [⟨"user", t⟩,
        ⟨"assistant", "(" ++ toString ev.score ++ "/100 - " ++ ev.feedback ++ ") " ++ lesson⟩] := by
  rw [run_cycle_ok p uid now s db t ev db1 plan lesson ht hne hev hsave hc hl]
  rfl

/-- Claim C8, witness: the amended composition at the concrete score-80 cycle. -/
theorem c8_witness :
    (run_cycle p80 (some 1) "tsw" s0 db0).state.history =
      s0.history ++ [⟨"user", "A variable stores a value"⟩,
        ⟨"assistant", "(" ++ toString (80 : Int) ++ "/100 - " ++ "Good" ++ ") " ++ "L2"⟩] :=
  c8_amended p80 (some 1) "tsw" s0 db0 "A variable stores a value" ⟨80, "Good"⟩
    ⟨[⟨1, "Student", "2024-01-01 10:00:00"⟩], [⟨1, 1, "Python Basics", "Beginner", 80, "tsw"⟩]⟩
    ⟨"Loops", "Intermediate"⟩ "L2" rfl rfl rfl rfl rfl rfl

/-- Claim C9 (confirmed): `text_to_speech` is total at its interface: for every
input it returns either an audio buffer or `none`, and on a synthesis failure the
bare except returns `none` rather than raising; in a cycle whose synthesis call
fails but whose other calls succeed, `last_audio` is set to `none`, no error
propagates, and the transcript (learner message and composed tutor turn) is
still recorded in history. -/
theorem c9 (g : String → Except Unit String) (text : String)
    (p : Providers) (uid : Option Nat) (now : String) (s : SessionState) (db : DB)
    (t : String) (ev : EvalResult) (db1 : DB) (plan : Plan) (lesson : String)
    (hg : g text = Except.error ())
    (ht : p.transcribe = Except.ok (some t))
    (hne : t.isEmpty = false)
    (hev : p.evaluate t s.current_topic = Except.ok ev)
    (hsave : saveStep p uid s.current_topic s.difficulty ev.score now db = Except.ok db1)
    (hc : p.curriculum ev.score s.current_topic = Except.ok plan)
    (hl : p.tutor plan.next_topic plan.difficulty = Except.ok lesson)
    (hg2 : p.gtts (full_response ev.score ev.feedback lesson) = Except.error ()) :
    (text_to_speech g text = none ∨ ∃ b, text_to_speech g text = some b) ∧
    text_to_speech g text = none ∧
    (run_cycle p uid now s db).err = none ∧
    (run_cycle p uid now s db).state.last_audio = none ∧
    (run_cycle p uid now s db).state.history =
      s.history ++ [⟨"user", t⟩,
        ⟨"assistant", full_response ev.score ev.feedback lesson⟩] := by
  have htts : text_to_speech g text = none := by simp [text_to_speech, hg]
  rw [run_cycle_ok p uid now s db t ev db1 plan lesson ht hne hev hsave hc hl]
  exact ⟨Or.inl htts, htts, rfl, by simp [text_to_speech, hg2], rfl⟩

/-- Claim C9, witness: the concrete cycle whose gTTS call raises still completes
with `last_audio = none` and the transcript recorded. -/
theorem c9_witness :
    (text_to_speech (fun _ => Except.error ()) "hello" = none ∨
      ∃ b, text_to_speech (fun _ => Except.error ()) "hello" = some b) ∧
    text_to_speech (fun _ => Except.error ()) "hello" = none ∧
    (run_cycle pTtsFail (some 1) "ts" s0 db0).err = none ∧
    (run_cycle pTtsFail (some 1) "ts" s0 db0).state.last_audio = none ∧
    (run_cycle pTtsFail (some 1) "ts" s0 db0).state.history =
      s0.history ++ [⟨"user", "A variable stores a value"⟩,
        ⟨"assistant", full_response 80 "Good" "L2"⟩] :=
  c9 (fun _ => Except.error ()) "hello" pTtsFail (some 1) "ts" s0 db0
    "A variable stores a value" ⟨80, "Good"⟩
    ⟨[⟨1, "Student", "2024-01-01 10:00:00"⟩], [⟨1, 1, "Python Basics", "Beginner", 80, "ts"⟩]⟩
    ⟨"Loops", "Intermediate"⟩ "L2" rfl rfl rfl rfl rfl rfl rfl rfl

/-- Claim C10 (confirmed): when a user row with the given name already exists,
`get_or_create_user` performs no database write: it returns the database
unchanged (both the `users` and the `logs` table) together with the id of the
first matching row. -/
theorem c10 (db : DB) (name now : String) (u : UserRow)
    (h : db.users.find? (fun v => v.name == name) = some u) :
    get_or_create_user db name now = (db, u.id) := by
  simp [get_or_create_user, h]

/-- Claim C10, witness: looking up the existing "Student" row of `db0` returns
id 1 and leaves the database unchanged. -/
theorem c10_witness :
    get_or_create_user db0 "Student" "ts" = (db0, 1) :=
  c10 db0 "Student" "ts" ⟨1, "Student", "2024-01-01 10:00:00"⟩ rfl

end Cortex
